import Mathlib

/-!
Verification of the financial calculation engine of the investment
calculator: the amortizing-loan payment function `calculatePMT`, the
derived-quantity / KPI function `calculateInvestment`, the cash-flow
projection generator `generateCashFlowProjection`, and the regional
tax-rate lookup `getItpRate`.

Numbers are modelled as exact rationals (`ℚ`); the loan term in years is
an integer.  JavaScript's `Math.round` (round half toward positive
infinity) is modelled by `jsRound`.
-/

namespace InvestmentCalculator

/-- JavaScript `Math.round x`: the integer `⌊x + 1/2⌋` (half rounds toward
positive infinity). -/
def jsRound (x : ℚ) : ℤ := ⌊x + 1 / 2⌋

/-- Monthly mortgage payment (source `calculatePMT`):
guards `principal <= 0 || years <= 0` and `annualRate <= 0`, otherwise the
closed-form amortization formula with monthly rate `annualRate / 12` and
`years * 12` payments. -/
def calculatePMT (annualRate : ℚ) (years : ℤ) (principal : ℚ) : ℚ :=
  if principal ≤ 0 ∨ years ≤ 0 then 0
  else if annualRate ≤ 0 then principal / ((years : ℚ) * 12)
  else
    principal * (annualRate / 12) * (1 + annualRate / 12) ^ (years * 12).toNat /
      ((1 + annualRate / 12) ^ (years * 12).toNat - 1)

/-- The input record of `calculateInvestment`, with the destructuring
defaults of the source. -/
structure InvestmentInputs where
  precioCompra : ℚ := 0
  itpRate : ℚ := 1 / 10
  gastos : ℚ := 0
  gastosHipoteca : ℚ := 0
  costeReforma : ℚ := 0
  comision : ℚ := 0
  mobiliario : ℚ := 0
  cuotaAlquiler : ℚ := 0
  revalorizacion : ℚ := 0
  porcentajeFinanciado : ℚ := 0
  plazoHipoteca : ℤ := 30
  tipoInteres : ℚ := 1 / 50
  impuestosAnuales : ℚ := 0
  segurosAnuales : ℚ := 0
  comunidadAnual : ℚ := 0
  mantenimientoAnual : ℚ := 0
  periodosVacioAnual : ℚ := 0

/-- `const impuestoITP = precioCompra * itpRate`. -/
def impuestoITP (i : InvestmentInputs) : ℚ := i.precioCompra * i.itpRate

/-- `const totalCompra = precioCompra + impuestoITP + gastos + gastosHipoteca
+ costeReforma + comision + mobiliario`. -/
def totalCompra (i : InvestmentInputs) : ℚ :=
  i.precioCompra + impuestoITP i + i.gastos + i.gastosHipoteca + i.costeReforma +
    i.comision + i.mobiliario

/-- `const hipoteca = precioCompra * porcentajeFinanciado`. -/
def hipoteca (i : InvestmentInputs) : ℚ := i.precioCompra * i.porcentajeFinanciado

/-- `const capitalAportar = totalCompra - hipoteca`. -/
def capitalAportar (i : InvestmentInputs) : ℚ := totalCompra i - hipoteca i

/-- `const cuotaHipotecaMensual = calculatePMT(tipoInteres, plazoHipoteca, hipoteca)`. -/
def cuotaHipotecaMensual (i : InvestmentInputs) : ℚ :=
  calculatePMT i.tipoInteres i.plazoHipoteca (hipoteca i)

/-- `const cuotaHipotecaAnual = cuotaHipotecaMensual * 12`. -/
def cuotaHipotecaAnual (i : InvestmentInputs) : ℚ := cuotaHipotecaMensual i * 12

/-- `const interesesPromedioMensual = hipoteca > 0 && plazoHipoteca > 0
? ((cuotaHipotecaMensual * 12 * plazoHipoteca) - hipoteca) / (plazoHipoteca * 12) : 0`. -/
def interesesPromedioMensual (i : InvestmentInputs) : ℚ :=
  if 0 < hipoteca i ∧ 0 < i.plazoHipoteca then
    (cuotaHipotecaMensual i * 12 * (i.plazoHipoteca : ℚ) - hipoteca i) /
      ((i.plazoHipoteca : ℚ) * 12)
  else 0

/-- `const interesesPromedioAnual = interesesPromedioMensual * 12`. -/
def interesesPromedioAnual (i : InvestmentInputs) : ℚ := interesesPromedioMensual i * 12

/-- `const amortizacionPromedioMensual = cuotaHipotecaMensual - interesesPromedioMensual`. -/
def amortizacionPromedioMensual (i : InvestmentInputs) : ℚ :=
  cuotaHipotecaMensual i - interesesPromedioMensual i

/-- `const amortizacionPromedioAnual = amortizacionPromedioMensual * 12`. -/
def amortizacionPromedioAnual (i : InvestmentInputs) : ℚ :=
  amortizacionPromedioMensual i * 12

/-- `const totalGastosMensual = (impuestosAnuales + segurosAnuales + comunidadAnual
+ mantenimientoAnual + periodosVacioAnual) / 12`. -/
def totalGastosMensual (i : InvestmentInputs) : ℚ :=
  (i.impuestosAnuales + i.segurosAnuales + i.comunidadAnual + i.mantenimientoAnual +
    i.periodosVacioAnual) / 12

/-- `const totalGastosAnual = impuestosAnuales + segurosAnuales + comunidadAnual
+ mantenimientoAnual + periodosVacioAnual`. -/
def totalGastosAnual (i : InvestmentInputs) : ℚ :=
  i.impuestosAnuales + i.segurosAnuales + i.comunidadAnual + i.mantenimientoAnual +
    i.periodosVacioAnual

/-- `const ingresoAnual = cuotaAlquiler * 12`. -/
def ingresoAnual (i : InvestmentInputs) : ℚ := i.cuotaAlquiler * 12

/-- `const rentabilidadBruta = totalCompra > 0 ? ingresoAnual / totalCompra : 0`. -/
def rentabilidadBruta (i : InvestmentInputs) : ℚ :=
  if 0 < totalCompra i then ingresoAnual i / totalCompra i else 0

/-- `const rentabilidadNeta = totalCompra > 0
? (ingresoAnual - totalGastosAnual - interesesPromedioAnual) / totalCompra : 0`. -/
def rentabilidadNeta (i : InvestmentInputs) : ℚ :=
  if 0 < totalCompra i then
    (ingresoAnual i - totalGastosAnual i - interesesPromedioAnual i) / totalCompra i
  else 0

/-- `const cashFlowMensual = cuotaAlquiler - cuotaHipotecaMensual - totalGastosMensual`. -/
def cashFlowMensual (i : InvestmentInputs) : ℚ :=
  i.cuotaAlquiler - cuotaHipotecaMensual i - totalGastosMensual i

/-- `const cashFlowAnual = cashFlowMensual * 12`. -/
def cashFlowAnual (i : InvestmentInputs) : ℚ := cashFlowMensual i * 12

/-- `const per = ingresoAnual > 0 ? totalCompra / ingresoAnual : 0`. -/
def per (i : InvestmentInputs) : ℚ :=
  if 0 < ingresoAnual i then totalCompra i / ingresoAnual i else 0

/-- `const porcentajeHipotecaAlquiler = cuotaAlquiler > 0
? cuotaHipotecaMensual / cuotaAlquiler : 0`. -/
def porcentajeHipotecaAlquiler (i : InvestmentInputs) : ℚ :=
  if 0 < i.cuotaAlquiler then cuotaHipotecaMensual i / i.cuotaAlquiler else 0

/-- `const cashFlowAlquiler = cuotaAlquiler > 0 ? cashFlowMensual / cuotaAlquiler : 0`. -/
def cashFlowAlquiler (i : InvestmentInputs) : ℚ :=
  if 0 < i.cuotaAlquiler then cashFlowMensual i / i.cuotaAlquiler else 0

/-- `const cashOnCash = capitalAportar > 0 ? (12 * cashFlowMensual) / capitalAportar : 0`. -/
def cashOnCash (i : InvestmentInputs) : ℚ :=
  if 0 < capitalAportar i then 12 * cashFlowMensual i / capitalAportar i else 0

/-- `const roce = capitalAportar > 0
? (12 * (cashFlowMensual + amortizacionPromedioMensual)) / capitalAportar : 0`. -/
def roce (i : InvestmentInputs) : ℚ :=
  if 0 < capitalAportar i then
    12 * (cashFlowMensual i + amortizacionPromedioMensual i) / capitalAportar i
  else 0

/-- `const rentabilidadTotal = capitalAportar > 0
? ((ingresoAnual - totalGastosAnual - interesesPromedioAnual) / capitalAportar)
+ revalorizacion : 0`. -/
def rentabilidadTotal (i : InvestmentInputs) : ℚ :=
  if 0 < capitalAportar i then
    (ingresoAnual i - totalGastosAnual i - interesesPromedioAnual i) / capitalAportar i +
      i.revalorizacion
  else 0

/-- The record returned by `calculateInvestment`. -/
structure InvestmentResult where
  impuestoITP : ℚ
  totalCompra : ℚ
  hipoteca : ℚ
  capitalAportar : ℚ
  cuotaHipotecaMensual : ℚ
  cuotaHipotecaAnual : ℚ
  interesesPromedioMensual : ℚ
  interesesPromedioAnual : ℚ
  amortizacionPromedioMensual : ℚ
  amortizacionPromedioAnual : ℚ
  totalGastosMensual : ℚ
  totalGastosAnual : ℚ
  ingresoAnual : ℚ
  rentabilidadBruta : ℚ
  rentabilidadNeta : ℚ
  cashFlowMensual : ℚ
  cashFlowAnual : ℚ
  per : ℚ
  porcentajeHipotecaAlquiler : ℚ
  cashFlowAlquiler : ℚ
  cashOnCash : ℚ
  roce : ℚ
  rentabilidadTotal : ℚ

/-- Source `calculateInvestment`: assembles every derived quantity and KPI. -/
def calculateInvestment (i : InvestmentInputs) : InvestmentResult :=
  { impuestoITP := impuestoITP i
    totalCompra := totalCompra i
    hipoteca := hipoteca i
    capitalAportar := capitalAportar i
    cuotaHipotecaMensual := cuotaHipotecaMensual i
    cuotaHipotecaAnual := cuotaHipotecaAnual i
    interesesPromedioMensual := interesesPromedioMensual i
    interesesPromedioAnual := interesesPromedioAnual i
    amortizacionPromedioMensual := amortizacionPromedioMensual i
    amortizacionPromedioAnual := amortizacionPromedioAnual i
    totalGastosMensual := totalGastosMensual i
    totalGastosAnual := totalGastosAnual i
    ingresoAnual := ingresoAnual i
    rentabilidadBruta := rentabilidadBruta i
    rentabilidadNeta := rentabilidadNeta i
    cashFlowMensual := cashFlowMensual i
    cashFlowAnual := cashFlowAnual i
    per := per i
    porcentajeHipotecaAlquiler := porcentajeHipotecaAlquiler i
    cashFlowAlquiler := cashFlowAlquiler i
    cashOnCash := cashOnCash i
    roce := roce i
    rentabilidadTotal := rentabilidadTotal i }

/-- C2: `calculatePMT` returns 0 when `principal <= 0` or `years <= 0`, and
`principal / (years * 12)` when the loan exists but `annualRate <= 0`. -/
theorem calculatePMT_zero_guards (annualRate : ℚ) (years : ℤ) (principal : ℚ) :
    (principal ≤ 0 ∨ years ≤ 0 → calculatePMT annualRate years principal = 0) ∧
      (0 < principal → 0 < years → annualRate ≤ 0 →
        calculatePMT annualRate years principal = principal / ((years : ℚ) * 12)) := by
  constructor
  · intro h
    simp [calculatePMT, h]
  · intro hp hy hr
    rw [calculatePMT, if_neg, if_pos hr]
    push_neg
    exact ⟨hp, hy⟩

/-- Witness for C2 at concrete inputs: a zero-term loan pays 0, and a
zero-interest 10-year loan of 1200 pays 10 per month. -/
theorem calculatePMT_zero_guards_witness :
    calculatePMT 1 0 500 = 0 ∧ calculatePMT 0 10 1200 = 10 := by
  constructor
  · exact (calculatePMT_zero_guards 1 0 500).1 (Or.inr (by norm_num))
  · rw [(calculatePMT_zero_guards 0 10 1200).2 (by norm_num) (by norm_num) le_rfl]
    norm_num

/-- C3: for a positive principal, term, and rate, `calculatePMT` is the
closed-form amortization formula
`principal * r * (1+r)^n / ((1+r)^n - 1)` with `r = annualRate / 12` and
`n = years * 12`. -/
theorem calculatePMT_amortization_formula (annualRate : ℚ) (years : ℤ) (principal : ℚ)
    (hp : 0 < principal) (hy : 0 < years) (hr : 0 < annualRate) :
    calculatePMT annualRate years principal =
      principal * (annualRate / 12) * (1 + annualRate / 12) ^ (years * 12).toNat /
        ((1 + annualRate / 12) ^ (years * 12).toNat - 1) := by
  rw [calculatePMT, if_neg, if_neg (not_le.mpr hr)]
  push_neg
  exact ⟨hp, hy⟩

/-- Witness for C3: a 1-year loan of 1 at annual rate 12 (monthly rate 1)
pays `2^12 / (2^12 - 1) = 4096/4095` per month. -/
theorem calculatePMT_amortization_formula_witness :
    (0 : ℚ) < 1 ∧ (0 : ℤ) < 1 ∧ (0 : ℚ) < 12 ∧ calculatePMT 12 1 1 = 4096 / 4095 := by
  refine ⟨by norm_num, by norm_num, by norm_num, ?_⟩
  rw [calculatePMT_amortization_formula 12 1 1 (by norm_num) (by norm_num) (by norm_num)]
  rw [show ((1 : ℤ) * 12).toNat = 12 from rfl]
  norm_num

/-- One data point of the cash-flow projection, as pushed by the source
(`year` label, rounded `cashFlow`, rounded `accumulated`). -/
structure ProjPoint where
  year : String
  cashFlow : ℤ
  accumulated : ℤ

/-- The body of the `for (let year = 1; year <= years; year++)` loop of
`generateCashFlowProjection`, with the remaining iteration count first,
then the `year` counter and the mutable `currentRent` and
`accumulatedCashFlow` variables. -/
def projectionLoop (revalorizacion : ℚ) : ℕ → ℕ → ℚ → ℚ → List ProjPoint
  | 0, _, _, _ => []
  | fuel + 1, year, currentRent, accumulatedCashFlow =>
    let rent := if 1 < year then currentRent * (1 + revalorizacion) else currentRent
    let acc := accumulatedCashFlow + rent
    { year := "Año " ++ toString year, cashFlow := jsRound rent, accumulated := jsRound acc } ::
      projectionLoop revalorizacion fuel (year + 1) rent acc

/-- Source `generateCashFlowProjection(results, revalorizacion, years)`:
the loop starts at year 1 with `currentRent = results.cashFlowMensual * 12`
and `accumulatedCashFlow = 0`.  The function reads only the
`cashFlowMensual` field of `results`, which is taken here as the first
argument. -/
def generateCashFlowProjection (cashFlowMensual revalorizacion : ℚ) (years : ℤ) : List ProjPoint :=
  projectionLoop revalorizacion years.toNat 1 (cashFlowMensual * 12) 0

/-- The unrounded cash flow of year `k + 1`: `base * 12` in year 1, then
multiplied by `1 + revalorizacion` each further year. -/
def unroundedCashFlow (base revalorizacion : ℚ) : ℕ → ℚ
  | 0 => base * 12
  | k + 1 => unroundedCashFlow base revalorizacion k * (1 + revalorizacion)

/-- Running sum of the unrounded yearly cash flows through year `k + 1`. -/
def cumulativeUnrounded (base revalorizacion : ℚ) : ℕ → ℚ
  | 0 => base * 12
  | k + 1 => cumulativeUnrounded base revalorizacion k + unroundedCashFlow base revalorizacion (k + 1)

theorem projectionLoop_length (r : ℚ) (fuel : ℕ) :
    ∀ (year : ℕ) (rent acc : ℚ), (projectionLoop r fuel year rent acc).length = fuel := by
  induction fuel with
  | zero => intro year rent acc; rfl
  | succ n ih =>
    intro year rent acc
    simp only [projectionLoop, List.length_cons, ih]

theorem projectionLoop_eq (base r : ℚ) (fuel : ℕ) :
    ∀ k0 : ℕ,
      projectionLoop r fuel (k0 + 2) (unroundedCashFlow base r k0) (cumulativeUnrounded base r k0) =
        (List.range' (k0 + 1) fuel).map (fun k =>
          { year := "Año " ++ toString (k + 1),
            cashFlow := jsRound (unroundedCashFlow base r k),
            accumulated := jsRound (cumulativeUnrounded base r k) }) := by
  induction fuel with
  | zero => intro k0; rfl
  | succ n ih =>
    intro k0
    simp only [projectionLoop]
    rw [if_pos (by omega : 1 < k0 + 2)]
    show ({ year := "Año " ++ toString (k0 + 2),
            cashFlow := jsRound (unroundedCashFlow base r (k0 + 1)),
            accumulated := jsRound (cumulativeUnrounded base r (k0 + 1)) } : ProjPoint) ::
        projectionLoop r n ((k0 + 1) + 2) (unroundedCashFlow base r (k0 + 1))
          (cumulativeUnrounded base r (k0 + 1)) = _
    rw [ih (k0 + 1)]
    rfl

/-- Closed form of the projection: the point at 0-based position `k` is
year `k + 1`, with the rounded unrounded cash flow of that year and the
rounded running sum of the unrounded yearly figures. -/
theorem generateCashFlowProjection_eq (base r : ℚ) (years : ℤ) :
    generateCashFlowProjection base r years =
      (List.range' 0 years.toNat).map (fun k =>
        { year := "Año " ++ toString (k + 1),
          cashFlow := jsRound (unroundedCashFlow base r k),
          accumulated := jsRound (cumulativeUnrounded base r k) }) := by
  unfold generateCashFlowProjection
  cases hn : years.toNat with
  | zero => rfl
  | succ n =>
    simp only [projectionLoop]
    rw [if_neg (by omega : ¬ (1 : ℕ) < 1), zero_add]
    show ({ year := "Año " ++ toString 1,
            cashFlow := jsRound (unroundedCashFlow base r 0),
            accumulated := jsRound (cumulativeUnrounded base r 0) } : ProjPoint) ::
        projectionLoop r n (0 + 2) (unroundedCashFlow base r 0) (cumulativeUnrounded base r 0) = _
    rw [projectionLoop_eq base r n 0]
    rfl

/-- The regional ITP tax-rate table (source `itpTable`), as an association
list from locality name to tax-rate fraction. -/
def itpTable : List (String × ℚ) :=
  [("Andalucía", 8 / 100), ("Aragón", 8 / 100), ("Asturias", 8 / 100), ("Baleares", 8 / 100),
    ("Canarias", 65 / 1000), ("Cantabria", 10 / 100), ("Castilla - La Mancha", 9 / 100),
    ("Castilla León", 8 / 100), ("Cataluña", 10 / 100), ("Ceuta", 6 / 100),
    ("Comunidad de Madrid", 6 / 100), ("Comunidad Valenciana", 10 / 100),
    ("Extremadura", 8 / 100), ("Galicia", 9 / 100), ("La Rioja", 7 / 100),
    ("Melilla", 6 / 100), ("Murcia", 8 / 100), ("Navarra", 6 / 100), ("País Vasco", 4 / 100)]

/-- Source `getItpRate`: `itpTable[community] || 0.08`.  A missing key gives
`undefined` and a stored 0 would be falsy, so both fall back to 0.08. -/
def getItpRate (community : String) : ℚ :=
  match itpTable.lookup community with
  | some rate => if rate = 0 then 8 / 100 else rate
  | none => 8 / 100

theorem lookup_some_mem_snd {l : List (String × ℚ)} {k : String} {v : ℚ}
    (h : l.lookup k = some v) : v ∈ l.map Prod.snd := by
  induction l with
  | nil => simp [List.lookup] at h
  | cons p t ih =>
    obtain ⟨k', v'⟩ := p
    rw [List.lookup] at h
    cases hbeq : k == k' with
    | true =>
      rw [hbeq] at h
      obtain rfl := Option.some.inj h
      simp
    | false =>
      rw [hbeq] at h
      simp [ih h]

/-- C9: `getItpRate` returns the stored rate for every key of the table and
the fallback `0.08` for every name absent from the table. -/
theorem getItpRate_spec (community : String) :
    (∀ rate : ℚ, itpTable.lookup community = some rate → getItpRate community = rate) ∧
      (itpTable.lookup community = none → getItpRate community = 8 / 100) := by
  constructor
  · intro rate h
    have hmem := lookup_some_mem_snd h
    have hne : rate ≠ 0 := by fin_cases hmem <;> norm_num
    unfold getItpRate
    rw [h]
    show (if rate = 0 then (8 : ℚ) / 100 else rate) = rate
    exact if_neg hne
  · intro h
    unfold getItpRate
    rw [h]

/-- Witness for C9: `Canarias` is in the table (rate 0.065) and `Madrid`
is not (fallback 0.08). -/
theorem getItpRate_spec_witness :
    itpTable.lookup "Canarias" = some (65 / 1000) ∧ getItpRate "Canarias" = 65 / 1000 ∧
      itpTable.lookup "Madrid" = none ∧ getItpRate "Madrid" = 8 / 100 :=
  ⟨rfl, (getItpRate_spec "Canarias").1 (65 / 1000) rfl, rfl, (getItpRate_spec "Madrid").2 rfl⟩

/-- C4: when the derived `totalCompra` is 0, the yield KPIs
`rentabilidadBruta` and `rentabilidadNeta` are exactly 0 (guarded division). -/
theorem yields_zero_of_totalCompra_zero (i : InvestmentInputs)
    (h : (calculateInvestment i).totalCompra = 0) :
    (calculateInvestment i).rentabilidadBruta = 0 ∧
      (calculateInvestment i).rentabilidadNeta = 0 := by
  have h' : totalCompra i = 0 := h
  have hneg : ¬ 0 < totalCompra i := by rw [h']; exact lt_irrefl 0
  constructor
  · show rentabilidadBruta i = 0
    rw [rentabilidadBruta, if_neg hneg]
  · show rentabilidadNeta i = 0
    rw [rentabilidadNeta, if_neg hneg]

/-- Witness for C4: the all-default input record has `totalCompra = 0`, so
both yields are 0. -/
theorem yields_zero_of_totalCompra_zero_witness :
    (calculateInvestment {}).totalCompra = 0 ∧
      (calculateInvestment {}).rentabilidadBruta = 0 ∧
      (calculateInvestment {}).rentabilidadNeta = 0 := by
  have h : (calculateInvestment {}).totalCompra = 0 := by
    norm_num [calculateInvestment, totalCompra, impuestoITP]
  have hc := yields_zero_of_totalCompra_zero {} h
  exact ⟨h, hc.1, hc.2⟩

/-- C5: when the derived `capitalAportar` is nonpositive, the KPIs
`cashOnCash`, `roce` and `rentabilidadTotal` are exactly 0; in particular
the `revalorizacion` term of `rentabilidadTotal` is dropped entirely. -/
theorem equity_kpis_zero_of_capital_nonpositive (i : InvestmentInputs)
    (h : (calculateInvestment i).capitalAportar ≤ 0) :
    (calculateInvestment i).cashOnCash = 0 ∧
      (calculateInvestment i).roce = 0 ∧
      (calculateInvestment i).rentabilidadTotal = 0 := by
  have h' : capitalAportar i ≤ 0 := h
  have hneg : ¬ 0 < capitalAportar i := not_lt.mpr h'
  refine ⟨?_, ?_, ?_⟩
  · show cashOnCash i = 0
    rw [cashOnCash, if_neg hneg]
  · show roce i = 0
    rw [roce, if_neg hneg]
  · show rentabilidadTotal i = 0
    rw [rentabilidadTotal, if_neg hneg]

/-- Witness for C5: with all purchase inputs 0 and a nonzero appreciation
rate of 5%, `capitalAportar = 0` and all three KPIs are 0 — the
appreciation contribution is dropped. -/
theorem equity_kpis_zero_of_capital_nonpositive_witness :
    (calculateInvestment { revalorizacion := 5 / 100 }).capitalAportar ≤ 0 ∧
      ({ revalorizacion := 5 / 100 } : InvestmentInputs).revalorizacion = 5 / 100 ∧
      (calculateInvestment { revalorizacion := 5 / 100 }).cashOnCash = 0 ∧
      (calculateInvestment { revalorizacion := 5 / 100 }).roce = 0 ∧
      (calculateInvestment { revalorizacion := 5 / 100 }).rentabilidadTotal = 0 := by
  have h : (calculateInvestment { revalorizacion := 5 / 100 }).capitalAportar ≤ 0 := by
    norm_num [calculateInvestment, capitalAportar, totalCompra, impuestoITP, hipoteca]
  have hc := equity_kpis_zero_of_capital_nonpositive { revalorizacion := 5 / 100 } h
  exact ⟨h, rfl, hc.1, hc.2.1, hc.2.2⟩

/-- The end-to-end scenario inputs of the spec: purchase price 105000,
ITP rate 0.10, closing costs 4000, renovation 20000, commission 1500,
furniture 4000, monthly rent 1100, 50% financed. -/
def scenarioInputs : InvestmentInputs :=
  { precioCompra := 105000
    itpRate := 1 / 10
    gastos := 4000
    costeReforma := 20000
    comision := 1500
    mobiliario := 4000
    cuotaAlquiler := 1100
    porcentajeFinanciado := 1 / 2 }

/-- C6: `calculateInvestment` derives `totalCompra`, `hipoteca`,
`capitalAportar` and `ingresoAnual` by the stated formulas, and on the
end-to-end scenario inputs they equal 145000, 52500, 92500 and 13200. -/
theorem derived_quantities_and_scenario :
    (∀ i : InvestmentInputs,
        (calculateInvestment i).totalCompra =
            i.precioCompra + i.precioCompra * i.itpRate + i.gastos + i.gastosHipoteca +
              i.costeReforma + i.comision + i.mobiliario ∧
          (calculateInvestment i).hipoteca = i.precioCompra * i.porcentajeFinanciado ∧
          (calculateInvestment i).capitalAportar =
            (calculateInvestment i).totalCompra - (calculateInvestment i).hipoteca ∧
          (calculateInvestment i).ingresoAnual = i.cuotaAlquiler * 12) ∧
      (calculateInvestment scenarioInputs).totalCompra = 145000 ∧
      (calculateInvestment scenarioInputs).hipoteca = 52500 ∧
      (calculateInvestment scenarioInputs).capitalAportar = 92500 ∧
      (calculateInvestment scenarioInputs).ingresoAnual = 13200 := by
  refine ⟨fun i => ⟨?_, rfl, rfl, rfl⟩, ?_, ?_, ?_, ?_⟩
  · show totalCompra i = _
    rw [totalCompra, impuestoITP]
  · norm_num [calculateInvestment, totalCompra, impuestoITP, scenarioInputs]
  · norm_num [calculateInvestment, hipoteca, scenarioInputs]
  · norm_num [calculateInvestment, capitalAportar, totalCompra, impuestoITP, hipoteca,
      scenarioInputs]
  · norm_num [calculateInvestment, ingresoAnual, scenarioInputs]

/-- C10: whenever the loan amount is positive and the term is positive, the
averaged monthly principal equals `hipoteca / (plazoHipoteca * 12)` exactly,
so over the full term it repays exactly the loan, whatever the rate. -/
theorem amortizacion_promedio_repays_loan (i : InvestmentInputs)
    (hh : 0 < (calculateInvestment i).hipoteca) (hp : 0 < i.plazoHipoteca) :
    (calculateInvestment i).amortizacionPromedioMensual =
        (calculateInvestment i).hipoteca / ((i.plazoHipoteca : ℚ) * 12) ∧
      (calculateInvestment i).amortizacionPromedioMensual * ((i.plazoHipoteca : ℚ) * 12) =
        (calculateInvestment i).hipoteca := by
  have hh' : 0 < hipoteca i := hh
  have hq : (0 : ℚ) < (i.plazoHipoteca : ℚ) := by exact_mod_cast hp
  have hne : (i.plazoHipoteca : ℚ) * 12 ≠ 0 := by positivity
  have key : amortizacionPromedioMensual i = hipoteca i / ((i.plazoHipoteca : ℚ) * 12) := by
    rw [amortizacionPromedioMensual, interesesPromedioMensual, if_pos ⟨hh', hp⟩]
    field_simp
    ring
  refine ⟨key, ?_⟩
  show amortizacionPromedioMensual i * ((i.plazoHipoteca : ℚ) * 12) = hipoteca i
  rw [key, div_mul_cancel₀ _ hne]

/-- A concrete loan scenario: 100000 purchase financed 50% at zero
interest over the default 30-year term. -/
def loanWitnessInputs : InvestmentInputs :=
  { precioCompra := 100000, porcentajeFinanciado := 1 / 2, tipoInteres := 0 }

/-- Witness for C10: on `loanWitnessInputs`, `hipoteca = 50000 > 0` and the
averaged monthly principal is `50000 / 360 = 1250/9`. -/
theorem amortizacion_promedio_repays_loan_witness :
    0 < (calculateInvestment loanWitnessInputs).hipoteca ∧
      0 < loanWitnessInputs.plazoHipoteca ∧
      (calculateInvestment loanWitnessInputs).amortizacionPromedioMensual = 1250 / 9 := by
  have hh : 0 < (calculateInvestment loanWitnessInputs).hipoteca := by
    norm_num [calculateInvestment, hipoteca, loanWitnessInputs]
  have hp : 0 < loanWitnessInputs.plazoHipoteca := by norm_num [loanWitnessInputs]
  have hc := (amortizacion_promedio_repays_loan loanWitnessInputs hh hp).1
  refine ⟨hh, hp, ?_⟩
  rw [hc]
  norm_num [calculateInvestment, hipoteca, loanWitnessInputs]

/-- C7: the projection has exactly `years` points when `years ≥ 1` and is
empty whenever `years ≤ 0`. -/
theorem projection_length_spec (base r : ℚ) (years : ℤ) :
    (1 ≤ years → ((generateCashFlowProjection base r years).length : ℤ) = years) ∧
      (years ≤ 0 → generateCashFlowProjection base r years = []) := by
  constructor
  · intro h
    unfold generateCashFlowProjection
    rw [projectionLoop_length]
    exact Int.toNat_of_nonneg (by omega)
  · intro h
    unfold generateCashFlowProjection
    rw [Int.toNat_eq_zero.mpr h]
    rfl

/-- Witness for C7: a 3-year horizon yields 3 points and a negative horizon
yields the empty sequence. -/
theorem projection_length_spec_witness :
    ((1 : ℤ) ≤ 3 ∧ ((generateCashFlowProjection 7 (1 / 10) 3).length : ℤ) = 3) ∧
      ((-2 : ℤ) ≤ 0 ∧ generateCashFlowProjection 7 (1 / 10) (-2) = []) := by
  constructor
  · exact ⟨by norm_num, (projection_length_spec 7 (1 / 10) 3).1 (by norm_num)⟩
  · exact ⟨by norm_num, (projection_length_spec 7 (1 / 10) (-2)).2 (by norm_num)⟩

/-- C8: every projected cash flow is the rounding of the unrounded yearly
figure, where the unrounded year-1 figure is `base * 12` and each later
year multiplies the previous unrounded figure by `1 + r` (any `r`,
negative included). -/
theorem projection_growth_compounding (base r : ℚ) (years : ℤ) :
    (generateCashFlowProjection base r years).map (fun p => p.cashFlow) =
        (List.range years.toNat).map (fun k => jsRound (unroundedCashFlow base r k)) ∧
      unroundedCashFlow base r 0 = base * 12 ∧
      ∀ k : ℕ, unroundedCashFlow base r (k + 1) = unroundedCashFlow base r k * (1 + r) := by
  refine ⟨?_, rfl, fun k => rfl⟩
  rw [generateCashFlowProjection_eq, List.range_eq_range', List.map_map]
  rfl

/-- Counterexample for C1: with a monthly cash flow of `1501/30` (yearly
`600.4`) and no growth over 2 years, the code's accumulated value of year 2
is `round(1200.8) = 1201`, while the round-then-sum reading of the claim
predicts `600 + 600 = 1200`. -/
theorem cumulative_round_then_sum_counterexample :
    ¬ ((generateCashFlowProjection (1501 / 30) 0 2).map (fun p => p.accumulated) =
        [jsRound (unroundedCashFlow (1501 / 30) 0 0),
          jsRound (unroundedCashFlow (1501 / 30) 0 0) +
            jsRound (unroundedCashFlow (1501 / 30) 0 1)]) := by
  intro h
  rw [generateCashFlowProjection_eq,
    show List.range' 0 ((2 : ℤ).toNat) = [0, 1] from rfl] at h
  norm_num [unroundedCashFlow, cumulativeUnrounded, jsRound] at h

/-- C1 (amended): the accumulated value of the point at position `k` is the
running sum of the unrounded yearly figures through year `k + 1`, rounded
once after accumulation; on `projectCashFlow(100, 0.02, 3)` the
accumulated values are 1200, 2424, 3672. -/
theorem cumulative_sum_then_round (base r : ℚ) (years : ℤ) (k : ℕ)
    (hk : k < (generateCashFlowProjection base r years).length) :
    ((generateCashFlowProjection base r years).get ⟨k, hk⟩).accumulated =
        jsRound (cumulativeUnrounded base r k) ∧
      (generateCashFlowProjection 100 (2 / 100) 3).map (fun p => p.accumulated) =
        [1200, 2424, 3672] := by
  constructor
  · rw [List.get_eq_getElem]
    simp only [generateCashFlowProjection_eq, List.getElem_map, List.getElem_range',
      zero_add, one_mul]
  · rw [generateCashFlowProjection_eq,
      show List.range' 0 ((3 : ℤ).toNat) = [0, 1, 2] from rfl]
    norm_num [unroundedCashFlow, cumulativeUnrounded, jsRound]

/-- Witness for C1 (amended): the year-3 point of
`projectCashFlow(100, 0.02, 3)` carries the rounded running sum. -/
theorem cumulative_sum_then_round_witness :
    2 < (generateCashFlowProjection 100 (2 / 100) 3).length ∧
      ((generateCashFlowProjection 100 (2 / 100) 3).get ⟨2, by decide⟩).accumulated =
        jsRound (cumulativeUnrounded 100 (2 / 100) 2) := by
  have hk : 2 < (generateCashFlowProjection 100 (2 / 100) 3).length := by decide
  exact ⟨hk, (cumulative_sum_then_round 100 (2 / 100) 3 2 hk).1⟩

end InvestmentCalculator
